import Mathlib

/-!
Verification of the property-qr service (Rust) against its specification.

The repository's data model and the operations referenced by the claims are
shallowly embedded below.  Pure Rust functions become Lean functions; the
stateful generator and handlers become explicit state-passing functions over
a pure document-store value, with an explicit trace of collaborator effects.
`f64` quantities that the claims reason about numerically (the analytics
success rate) are modelled by exact rationals; `DateTime<Utc>` values are
modelled as millisecond integers supplied by the environment; `ObjectId` is
modelled as a string.  External collaborators (the `sha2` digest, the image
encoder, the S3 object store, BSON object-id validation) are fields of the
environment record, matching the spec's collaborator interfaces.
-/

namespace PropertyQr

/-- BSON object ids are modelled as plain strings. -/
abbrev ObjectId := String

/-- `DateTime<Utc>` modelled as a unix-epoch millisecond count. -/
abbrev UtcDateTime := Int

/-- A minimal JSON value type for the free-form metadata maps
(`HashMap<String, serde_json::Value>` in the source). -/
inductive Json where
  | null : Json
  | bool (b : Bool) : Json
  | num (q : ℚ) : Json
  | str (s : String) : Json
  | arr (elems : List Json) : Json
  | obj (fields : List (String × Json)) : Json

/-! ## src/models/property.rs : the property data model -/

/-- `Coordinates` (the `f64` fields are never computed with by the QR core;
they are modelled as rationals). -/
structure Coordinates where
  lat : ℚ
  lng : ℚ

inductive PropertyType where
  | Residential | Commercial | Land | SpecialPurpose | VacationShortTerm

inductive ListingState where
  | SimplyListed | RequestedFinancing | InMarketplaceWaitingForFinancing
  | AcceptedForCollateral

structure PropertyStatus where
  sold : Bool
  occupied : Bool
  listing_state : ListingState

structure Amenities where
  furnished : Bool
  pool : Bool
  gym : Bool
  garden : Bool
  parking : Bool

structure ClickHistoryItem where
  timestamp : UtcDateTime
  id : Option ObjectId

structure WishlistHistoryItem where
  timestamp : UtcDateTime
  id : Option ObjectId

structure CoOwner where
  user_id : ObjectId
  percentage_owned : ℚ
  investment_date : UtcDateTime

structure BlockchainInfo where
  registered : Bool
  registered_at : Option UtcDateTime
  verified : Bool
  verified_at : Option UtcDateTime
  verified_by : Option String
  transaction_hash : Option String
  sbt_id : Option String
  ownership_token_id : Option String
  zk_proof : Option String
  last_updated_on_chain : Option UtcDateTime
  owner_wallet_address : Option String

structure Transaction where
  tx_id : String
  buyer_id : ObjectId
  amount : ℚ
  timestamp : UtcDateTime
  payment_method : String

inductive BookingStatus where
  | Pending | Confirmed | Cancelled | Completed

structure Booking where
  renter_id : ObjectId
  check_in : UtcDateTime
  check_out : UtcDateTime
  status : BookingStatus

inductive ProposalStatus where
  | Proposed | Voting | Approved | Rejected | Implemented

inductive VoteType where
  | Yes | No | Abstain

structure Vote where
  user_id : ObjectId
  vote : VoteType
  timestamp : UtcDateTime

structure Proposal where
  proposal_id : String
  title : String
  description : Option String
  status : ProposalStatus
  votes : List Vote
  created_at : UtcDateTime
  expires_at : UtcDateTime

structure Featured where
  is_featured : Bool
  featured_by : Option ObjectId
  featured_at : Option UtcDateTime
  priority_level : Int

structure Report where
  id : ObjectId
  reported_by : ObjectId
  reason : String
  description : Option String
  created_at : UtcDateTime
  resolved : Bool
  resolved_by : Option ObjectId
  resolved_at : Option UtcDateTime
  resolution : Option String

inductive DocumentType where
  | TitleDeed | CertificateOfLease | RatesClearance | LandRentClearance
  | UtilityBill | CourtJudgment | Probate | ConsentToTransfer | SaleAgreement
  | StampDutyReceipt | AdversePossession | Affidavit | Other

structure Document where
  document_id : String
  document_type : DocumentType
  document_name : String
  document_url : String
  file_type : String
  upload_date : UtcDateTime
  expiry_date : Option UtcDateTime
  is_verified : Bool
  verified_by : Option ObjectId
  verified_at : Option UtcDateTime
  verification_notes : Option String
  document_hash : Option String
  metadata : Option (List (String × Json))

/-- The full `Property` document (src/models/property.rs). -/
structure Property where
  id : ObjectId
  owner : ObjectId
  property_name : String
  location : String
  coordinates : Coordinates
  street_address : String
  google_maps_url : Option String
  property_type : PropertyType
  specific_type : String
  unit_no : Option String
  status : PropertyStatus
  action : String
  price : Int
  space : Int
  bedrooms : Option Int
  bathrooms : Option Int
  features : List String
  security : String
  amenities : Amenities
  additional_comments : Option String
  rooms : Option Int
  crypto_accepted : Bool
  images : List String
  clicks : Int
  click_history : List ClickHistoryItem
  wishlist_count : Int
  wishlist_history : List WishlistHistoryItem
  popularity_score : ℚ
  onchain_id : Option String
  co_owned : Bool
  co_owners : List CoOwner
  available_shares : Int
  blockchain : Option BlockchainInfo
  transactions : List Transaction
  bookings : List Booking
  proposals : List Proposal
  featured : Featured
  reports : Option (List Report)
  documents : Option (List Document)
  base_name : Option String
  base_name_pending : Option Bool
  base_name_confirmed : Option Bool
  base_name_requested_at : Option UtcDateTime
  base_name_confirmed_at : Option UtcDateTime
  base_name_transaction_hash : Option String
  removed : Option Bool
  removed_by : Option ObjectId
  removed_at : Option UtcDateTime
  removed_reason : Option String
  is_verified : Option Bool
  verified_by : Option ObjectId
  verified_at : Option UtcDateTime
  created_at : UtcDateTime
  updated_at : UtcDateTime
  version : Option Int

/-- Simplified projection of a property used by the QR core
(`PropertyQrInfo` in src/models/property.rs). -/
structure PropertyQrInfo where
  id : ObjectId
  property_name : String
  location : String
  action : String
  price : Int
  onchain_id : Option String
  crypto_accepted : Bool
  images : List String
  is_verified : Option Bool
  removed : Option Bool

/-- `Property::is_qr_eligible` (src/models/property.rs lines 376-393). -/
def Property.is_qr_eligible (p : Property) : Bool :=
  if p.removed.getD false then false
  else if p.images.isEmpty then false
  else if p.price ≤ 0 then false
  else true

/-- `Property::to_qr_info` (src/models/property.rs lines 396-409). -/
def Property.to_qr_info (p : Property) : PropertyQrInfo :=
  { id := p.id
    property_name := p.property_name
    location := p.location
    action := p.action
    price := p.price
    onchain_id := p.onchain_id
    crypto_accepted := p.crypto_accepted
    images := p.images
    is_verified := p.is_verified
    removed := p.removed }

/-- Mirror of the `Default for Property` impl (src/models/property.rs
lines 432-507); the two random object ids and the two current timestamps the
Rust impl draws are taken as arguments. -/
def Property.defaultWith (id owner : ObjectId) (now : UtcDateTime) : Property :=
  { id := id
    owner := owner
    property_name := ""
    location := ""
    coordinates := { lat := 0, lng := 0 }
    street_address := ""
    google_maps_url := none
    property_type := .Residential
    specific_type := ""
    unit_no := none
    status := { sold := false, occupied := false, listing_state := .SimplyListed }
    action := ""
    price := 0
    space := 0
    bedrooms := none
    bathrooms := none
    features := []
    security := ""
    amenities := { furnished := false, pool := false, gym := false, garden := false, parking := false }
    additional_comments := none
    rooms := none
    crypto_accepted := false
    images := []
    clicks := 0
    click_history := []
    wishlist_count := 0
    wishlist_history := []
    popularity_score := 0
    onchain_id := none
    co_owned := false
    co_owners := []
    available_shares := 0
    blockchain := none
    transactions := []
    bookings := []
    proposals := []
    featured := { is_featured := false, featured_by := none, featured_at := none, priority_level := 3 }
    reports := none
    documents := none
    base_name := none
    base_name_pending := none
    base_name_confirmed := none
    base_name_requested_at := none
    base_name_confirmed_at := none
    base_name_transaction_hash := none
    removed := none
    removed_by := none
    removed_at := none
    removed_reason := none
    is_verified := none
    verified_by := none
    verified_at := none
    created_at := now
    updated_at := now
    version := none }

/-! ## src/services/property_service.rs : property lookup and eligibility -/

/-- `PropertyError` (DatabaseError is omitted: the document store is modelled
as a pure in-memory value, so driver errors cannot arise in the embedding). -/
inductive PropertyError where
  | NotFound
  | InvalidId
  | NotEligibleForQr (reason : String)

/-- `PropertyService::get_property_by_id`: parse the id (`ObjectId::from_str`,
modelled by the environment-supplied validity predicate) then `find_one` on
`_id`. -/
def get_property_by_id (validId : String → Bool) (properties : List Property)
    (property_id : String) : Except PropertyError Property :=
  if !(validId property_id) then .error .InvalidId
  else
    match properties.find? (fun p => p.id == property_id) with
    | some p => .ok p
    | none => .error .NotFound

/-- `PropertyService::get_ineligibility_reason`
(src/services/property_service.rs lines 335-349). -/
def get_ineligibility_reason (p : Property) : String :=
  if p.removed.getD false then "Property has been removed"
  else if p.images.isEmpty then "Property has no images"
  else if p.price ≤ 0 then "Property has invalid price"
  else "Unknown reason"

/-- `PropertyService::get_property_qr_info`
(src/services/property_service.rs lines 70-80). -/
def get_property_qr_info (validId : String → Bool) (properties : List Property)
    (property_id : String) : Except PropertyError PropertyQrInfo :=
  match get_property_by_id validId properties property_id with
  | .error e => .error e
  | .ok p =>
    if !p.is_qr_eligible then .error (.NotEligibleForQr (get_ineligibility_reason p))
    else .ok p.to_qr_info

/-! ## src/models/qr_code.rs : QR metadata model -/

inductive QrGenerationReason where
  | NewProperty | PropertyUpdated | ManualRegeneration | BatchGeneration | ExpiredQr
deriving DecidableEq

/-- The payload encoded into the QR image (`QrCodeData`). -/
structure QrCodeData where
  qr_type : String
  property_id : String
  scan_url : String
  version : String
  timestamp : Int

/-- `QrCodeData::new`; `Utc::now().timestamp()` is taken as an argument. -/
def QrCodeData.new (property_id : String) (scan_base_url : String)
    (now_secs : Int) : QrCodeData :=
  { qr_type := "daobitat_property"
    property_id := property_id
    scan_url := scan_base_url ++ "/scan/" ++ property_id
    version := "1.0"
    timestamp := now_secs }

/-- Minimal JSON string escaping used when serialising `QrCodeData`
(quote and backslash; serde_json's control-character escapes do not occur in
the payloads the claims mention and are elided). -/
def jsonEscape (s : String) : String :=
  String.mk (s.data.foldr
    (fun c acc =>
      if c == '"' then '\\' :: '"' :: acc
      else if c == '\\' then '\\' :: '\\' :: acc
      else c :: acc) [])

/-- `QrCodeData::to_json_string` — the serde_json serialisation of the
struct with its rename attributes; serialisation of this struct cannot fail,
so the `Result` is dropped. -/
def QrCodeData.to_json_string (d : QrCodeData) : String :=
  "\x7b\"type\":\"" ++ jsonEscape d.qr_type
    ++ "\",\"propertyId\":\"" ++ jsonEscape d.property_id
    ++ "\",\"scanUrl\":\"" ++ jsonEscape d.scan_url
    ++ "\",\"version\":\"" ++ jsonEscape d.version
    ++ "\",\"timestamp\":" ++ toString d.timestamp ++ "\x7d"

/-- `QrCodeData::is_valid`. -/
def QrCodeData.is_valid (d : QrCodeData) : Bool :=
  !d.property_id.isEmpty && !d.scan_url.isEmpty
    && d.qr_type == "daobitat_property" && !d.version.isEmpty

/-- The embedded point-in-time property snapshot (`QrMetadata`). -/
structure QrMetadata where
  property_name : String
  location : String
  action : String
  price : Int
  onchain_id : Option String
  crypto_accepted : Bool
  primary_image : Option String
  is_verified : Bool
  generated_by : Option ObjectId
  generation_reason : QrGenerationReason
deriving DecidableEq

/-- The stored QR record (`QrCodeMetadata`). -/
structure QrCodeMetadata where
  id : ObjectId
  property_id : String
  qr_code_url : String
  qr_pattern : String
  qr_code_hash : String
  generated_at : UtcDateTime
  last_updated : UtcDateTime
  scan_count : Int
  last_scanned : Option UtcDateTime
  is_active : Bool
  qr_version : Int
  metadata : QrMetadata
deriving DecidableEq

/-- `QrCodeMetadata::new` (src/models/qr_code.rs lines 195-221).  The SHA-256
hex digest (the external `sha2` crate), the fresh `ObjectId` and `Utc::now()`
are taken as arguments. -/
def QrCodeMetadata.new (sha256 : String → String) (freshId : ObjectId)
    (now : UtcDateTime) (property_id qr_pattern qr_code_url : String)
    (metadata : QrMetadata) : QrCodeMetadata :=
  { id := freshId
    property_id := property_id
    qr_code_url := qr_code_url
    qr_pattern := qr_pattern
    qr_code_hash := sha256 qr_pattern
    generated_at := now
    last_updated := now
    scan_count := 0
    last_scanned := none
    is_active := true
    qr_version := 1
    metadata := metadata }

/-- `QrCodeMetadata::regenerate` (src/models/qr_code.rs lines 237-249):
replace pattern/url/hash, bump the version by one, refresh `last_updated`,
force the record active.  (`qr_version` is an `i32` in the source; its
overflow, unreachable in practice, is not modelled.) -/
def QrCodeMetadata.regenerate (sha256 : String → String) (now : UtcDateTime)
    (q : QrCodeMetadata) (new_pattern new_url : String) : QrCodeMetadata :=
  { q with
    qr_pattern := new_pattern
    qr_code_url := new_url
    qr_code_hash := sha256 new_pattern
    qr_version := q.qr_version + 1
    last_updated := now
    is_active := true }

inductive QrStatus where
  | Generated | Regenerated | Failed | Exists
deriving DecidableEq

structure QrCodeResponse where
  property_id : String
  qr_code_url : String
  scan_url : String
  generated_at : UtcDateTime
  metadata : QrMetadata
  status : QrStatus
deriving DecidableEq

/-- One per-id failure entry of a batch response (`QrGenerationError`). -/
structure QrGenerationFailure where
  property_id : String
  error : String
  error_code : String
deriving DecidableEq

structure BatchQrCodeResponse where
  successful : List QrCodeResponse
  failed : List QrGenerationFailure
  total_requested : Nat
  total_successful : Nat
  total_failed : Nat
deriving DecidableEq

/-! ## src/services/qr_generator.rs : the QR generator -/

/-- `QrGeneratorError` (DatabaseError omitted: the store is pure in the
embedding). -/
inductive QrGeneratorError where
  | PropertyNotFound
  | PropertyNotEligible (reason : String)
  | QrGenerationFailed (reason : String)
  | S3UploadFailed (reason : String)
  | InvalidPropertyId
deriving DecidableEq

/-- The `Display` impl for `QrGeneratorError`. -/
def QrGeneratorError.message : QrGeneratorError → String
  | .PropertyNotFound => "Property not found"
  | .PropertyNotEligible r => "Property not eligible: " ++ r
  | .QrGenerationFailed r => "QR generation failed: " ++ r
  | .S3UploadFailed r => "S3 upload failed: " ++ r
  | .InvalidPropertyId => "Invalid property ID"

/-- The error-code strings assigned in `batch_generate_qr_codes`. -/
def QrGeneratorError.code : QrGeneratorError → String
  | .PropertyNotFound => "PROPERTY_NOT_FOUND"
  | .PropertyNotEligible _ => "PROPERTY_NOT_ELIGIBLE"
  | .QrGenerationFailed _ => "QR_GENERATION_FAILED"
  | .S3UploadFailed _ => "S3_UPLOAD_FAILED"
  | .InvalidPropertyId => "INVALID_PROPERTY_ID"

/-- `find_one(doc! \x7b "propertyId": property_id \x7d)` over the
`qr_metadata` collection: first record matching the property id. -/
def findByPropertyId (store : List QrCodeMetadata) (property_id : String) :
    Option QrCodeMetadata :=
  store.find? (fun q => q.property_id == property_id)

/-- `replace_one` with `upsert(true)` keyed on `propertyId`: replace the
first record with that property id, or append if none matches. -/
def upsertByPropertyId : List QrCodeMetadata → QrCodeMetadata → List QrCodeMetadata
  | [], q => [q]
  | r :: rest, q =>
    if r.property_id == q.property_id then q :: rest
    else r :: upsertByPropertyId rest q

/-- The collaborator calls the generator makes, in invocation order.
Recorded so that "must not invoke X" claims are statable. -/
inductive GenEffect where
  | lookupExisting (property_id : String)
  | fetchProperty (property_id : String)
  | eligibilityCheck (property_id : String)
  | encodeImage (payload : String)
  | uploadImage (key : String)
  | upsertMetadata (property_id : String)
deriving DecidableEq

/-- The generator's environment: the property collection, id validation
(`ObjectId::from_str`), the image encoder and object-store collaborators,
the `sha2` digest, the service base url, and the clock / fresh-id oracles. -/
structure GenEnv where
  validId : String → Bool
  properties : List Property
  encode : String → Except String (List Nat)
  upload : String → List Nat → Except String String
  sha256 : String → String
  baseUrl : String
  now : UtcDateTime
  freshId : ObjectId

structure GenResult where
  result : Except QrGeneratorError QrCodeResponse
  store : List QrCodeMetadata
  effects : List GenEffect

/-- The `QrMetadata` snapshot the generator builds from the freshly fetched
property info (src/services/qr_generator.rs lines 148-159). -/
def qrSnapshot (property_info : PropertyQrInfo)
    (reason : QrGenerationReason) : QrMetadata :=
  { property_name := property_info.property_name
    location := property_info.location
    action := property_info.action
    price := property_info.price
    onchain_id := property_info.onchain_id
    crypto_accepted := property_info.crypto_accepted
    primary_image := property_info.images.head?
    is_verified := property_info.is_verified.getD false
    generated_by := none
    generation_reason := reason }

/-- `QrGeneratorService::generate_qr_code`
(src/services/qr_generator.rs lines 97-192), with the document store passed
and returned explicitly and collaborator invocations traced. -/
def generate_qr_code (env : GenEnv) (store : List QrCodeMetadata)
    (property_id : String) (force_regenerate : Bool)
    (reason : QrGenerationReason) : GenResult :=
  -- idempotency fast path: only when not forcing, and only for a record
  -- that exists and is active
  let fastHit : Option QrCodeMetadata :=
    if force_regenerate then none
    else match findByPropertyId store property_id with
      | some existing_qr => if existing_qr.is_active then some existing_qr else none
      | none => none
  match fastHit with
  | some existing_qr =>
    { result := .ok
        { property_id := property_id
          qr_code_url := existing_qr.qr_code_url
          scan_url := env.baseUrl ++ "/scan/" ++ property_id
          generated_at := existing_qr.generated_at
          metadata := existing_qr.metadata
          status := .Exists }
      store := store
      effects := [.lookupExisting property_id] }
  | none =>
    let effs1 :=
      (if force_regenerate then [] else [GenEffect.lookupExisting property_id])
        ++ [GenEffect.fetchProperty property_id]
    match get_property_by_id env.validId env.properties property_id with
    | .error .InvalidId =>
      { result := .error .InvalidPropertyId, store := store, effects := effs1 }
    | .error .NotFound =>
      { result := .error .PropertyNotFound, store := store, effects := effs1 }
    | .error (.NotEligibleForQr r) =>
      -- unreachable: get_property_by_id never returns this variant
      { result := .error (.PropertyNotEligible r), store := store, effects := effs1 }
    | .ok prop =>
      let effs2 := effs1 ++ [GenEffect.eligibilityCheck property_id]
      if !prop.is_qr_eligible then
        { result := .error (.PropertyNotEligible (get_ineligibility_reason prop))
          store := store
          effects := effs2 }
      else
        let property_info := prop.to_qr_info
        let qr_data := QrCodeData.new property_id env.baseUrl env.now
        let qr_json := qr_data.to_json_string
        let effs3 := effs2 ++ [GenEffect.encodeImage qr_json]
        match env.encode qr_json with
        | .error e =>
          { result := .error (.QrGenerationFailed e), store := store, effects := effs3 }
        | .ok qr_image_data =>
          let s3_key := "qr-images/" ++ property_id ++ ".png"
          let effs4 := effs3 ++ [GenEffect.uploadImage s3_key]
          match env.upload s3_key qr_image_data with
          | .error e =>
            { result := .error (.S3UploadFailed e), store := store, effects := effs4 }
          | .ok qr_code_url =>
            let metadata : QrMetadata := qrSnapshot property_info reason
            let qr_metadata :=
              if force_regenerate then
                -- regeneration: mutate the existing record in place, or fall
                -- back to a freshly constructed one if none exists
                let existing :=
                  (findByPropertyId store property_id).getD
                    (QrCodeMetadata.new env.sha256 env.freshId env.now
                      property_id qr_json qr_code_url metadata)
                let regenerated :=
                  existing.regenerate env.sha256 env.now qr_json qr_code_url
                { regenerated with metadata := metadata }
              else
                QrCodeMetadata.new env.sha256 env.freshId env.now
                  property_id qr_json qr_code_url metadata
            let store' := upsertByPropertyId store qr_metadata
            let effs5 := effs4
              ++ (if force_regenerate then [GenEffect.lookupExisting property_id] else [])
              ++ [GenEffect.upsertMetadata property_id]
            { result := .ok
                { property_id := property_id
                  qr_code_url := qr_code_url
                  scan_url := env.baseUrl ++ "/scan/" ++ qr_metadata.property_id
                  generated_at := qr_metadata.generated_at
                  metadata := metadata
                  status := if force_regenerate then .Regenerated else .Generated }
              store := store'
              effects := effs5 }

/-- One iteration of the batch loop: attempt generation for one id against
the current store, appending either a success response or a typed
(property_id, error message, error code) failure entry. -/
def batchStep (env : GenEnv) (force_regenerate : Bool)
    (reason : QrGenerationReason)
    (st : List QrCodeResponse × List QrGenerationFailure × List QrCodeMetadata)
    (property_id : String) :
    List QrCodeResponse × List QrGenerationFailure × List QrCodeMetadata :=
  let r := generate_qr_code env st.2.2 property_id force_regenerate reason
  match r.result with
  | .ok qr_response => (st.1 ++ [qr_response], st.2.1, r.store)
  | .error e =>
    (st.1,
     st.2.1 ++ [{ property_id := property_id
                  error := e.message
                  error_code := e.code }],
     r.store)

/-- `QrGeneratorService::batch_generate_qr_codes`
(src/services/qr_generator.rs lines 195-248): sequential fold over the id
list, partitioning outcomes and threading the store. -/
def batch_generate_qr_codes (env : GenEnv) (store : List QrCodeMetadata)
    (property_ids : List String) (force_regenerate : Bool)
    (reason : QrGenerationReason) :
    BatchQrCodeResponse × List QrCodeMetadata :=
  let final := property_ids.foldl (batchStep env force_regenerate reason) ([], [], store)
  ({ successful := final.1
     failed := final.2.1
     total_requested := property_ids.length
     total_successful := final.1.length
     total_failed := final.2.1.length },
   final.2.2)

/-! ## src/models/scan_analytics.rs : scan events and analytics -/

inductive ScanSource where
  | QrCode | DirectLink | ShareLink | SearchEngine | SocialMedia | Unknown
deriving DecidableEq

inductive RedirectType where
  | DualRedirect | DaobitarOnly | BlockchainOnly | Failed
deriving DecidableEq

inductive DeviceType where
  | Mobile | Tablet | Desktop | Unknown
deriving DecidableEq

structure GeoLocation where
  country : Option String
  region : Option String
  city : Option String
  latitude : Option ℚ
  longitude : Option ℚ
  timezone : Option String

structure DeviceInfo where
  device_type : DeviceType
  platform : Option String
  browser : Option String
  browser_version : Option String
  screen_size : Option String
  is_mobile : Bool
deriving DecidableEq

/-- One immutable scan record (`ScanEvent`). -/
structure ScanEvent where
  id : ObjectId
  property_id : String
  qr_version : Int
  scanned_at : UtcDateTime
  scan_source : ScanSource
  user_agent : Option String
  ip_address : Option String
  geolocation : Option GeoLocation
  device_info : Option DeviceInfo
  session_id : Option String
  referrer : Option String
  redirect_success : Bool
  redirect_type : RedirectType
  response_time : Option Nat
  metadata : List (String × Json)

/-- `ScanEvent::new` (src/models/scan_analytics.rs lines 270-293); the fresh
`ObjectId` and `Utc::now()` are taken as arguments. -/
def ScanEvent.new (id : ObjectId) (now : UtcDateTime) (property_id : String)
    (qr_version : Int) (scan_source : ScanSource)
    (redirect_type : RedirectType) : ScanEvent :=
  { id := id
    property_id := property_id
    qr_version := qr_version
    scanned_at := now
    scan_source := scan_source
    user_agent := none
    ip_address := none
    geolocation := none
    device_info := none
    session_id := none
    referrer := none
    redirect_success := true
    redirect_type := redirect_type
    response_time := none
    metadata := [] }

def ScanEvent.with_device_info (e : ScanEvent) (device_info : DeviceInfo) : ScanEvent :=
  { e with device_info := some device_info }

def ScanEvent.with_geolocation (e : ScanEvent) (geolocation : GeoLocation) : ScanEvent :=
  { e with geolocation := some geolocation }

def ScanEvent.with_request_data (e : ScanEvent)
    (user_agent ip_address session_id referrer : Option String) : ScanEvent :=
  { e with
    user_agent := user_agent
    ip_address := ip_address
    session_id := session_id
    referrer := referrer }

def ScanEvent.with_response_time (e : ScanEvent) (response_time : Nat) : ScanEvent :=
  { e with response_time := some response_time }

/-- `ScanEvent::mark_failed` (src/models/scan_analytics.rs lines 329-333). -/
def ScanEvent.mark_failed (e : ScanEvent) : ScanEvent :=
  { e with redirect_success := false, redirect_type := .Failed }

/-- `HashMap::insert` on the metadata map, modelled on an association list:
replace an existing binding for the key, else append. -/
def insertKV (m : List (String × Json)) (k : String) (v : Json) :
    List (String × Json) :=
  if m.any (fun p => p.1 == k) then
    m.map (fun p => if p.1 == k then (k, v) else p)
  else m ++ [(k, v)]

def ScanEvent.add_metadata (e : ScanEvent) (key : String) (value : Json) : ScanEvent :=
  { e with metadata := insertKV e.metadata key value }

/-- Rust `str::contains` on strings (substring search). -/
def strContains (haystack needle : String) : Bool :=
  (List.range (haystack.data.length + 1)).any
    (fun i => needle.data.isPrefixOf (haystack.data.drop i))

/-- Rust `str::to_lowercase`, character-wise (the ASCII mapping; the Unicode
special cases never arise in the keyword comparisons below). -/
def strToLower (s : String) : String :=
  String.mk (s.data.map Char.toLower)

/-- `DeviceInfo::from_user_agent`
(src/models/scan_analytics.rs lines 344-397). -/
def DeviceInfo.from_user_agent (user_agent : String) : DeviceInfo :=
  let user_agent_lower := strToLower user_agent
  let is_mobile := strContains user_agent_lower "mobile"
    || strContains user_agent_lower "android"
    || strContains user_agent_lower "iphone"
  let is_tablet := strContains user_agent_lower "tablet"
    || strContains user_agent_lower "ipad"
  let device_type :=
    if is_tablet then DeviceType.Tablet
    else if is_mobile then DeviceType.Mobile
    else DeviceType.Desktop
  let platform :=
    if strContains user_agent_lower "windows" then some "Windows"
    else if strContains user_agent_lower "mac" then some "macOS"
    else if strContains user_agent_lower "linux" then some "Linux"
    else if strContains user_agent_lower "android" then some "Android"
    else if strContains user_agent_lower "ios" || strContains user_agent_lower "iphone"
      then some "iOS"
    else none
  let browser :=
    if strContains user_agent_lower "chrome" then some "Chrome"
    else if strContains user_agent_lower "firefox" then some "Firefox"
    else if strContains user_agent_lower "safari" && !(strContains user_agent_lower "chrome")
      then some "Safari"
    else if strContains user_agent_lower "edge" then some "Edge"
    else none
  { device_type := device_type
    platform := platform
    browser := browser
    browser_version := none
    screen_size := none
    is_mobile := is_mobile }

structure CountryStats where
  country : String
  count : Int
  percentage : ℚ

structure DeviceBreakdown where
  mobile : Int
  desktop : Int
  tablet : Int
  unknown : Int

structure DailyScanCount where
  date : String
  count : Int

/-- Per-property rolling analytics (`PropertyScanAnalytics`); the `f64`
success rate and average response time are modelled as exact rationals. -/
structure PropertyScanAnalytics where
  id : ObjectId
  property_id : String
  total_scans : Int
  unique_scans : Int
  last_scanned : Option UtcDateTime
  first_scanned : Option UtcDateTime
  scans_today : Int
  scans_this_week : Int
  scans_this_month : Int
  top_countries : List CountryStats
  device_breakdown : DeviceBreakdown
  scan_trends : List DailyScanCount
  average_response_time : Option ℚ
  success_rate : ℚ
  last_updated : UtcDateTime

/-- `PropertyScanAnalytics::new`
(src/models/scan_analytics.rs lines 402-425). -/
def PropertyScanAnalytics.new (id : ObjectId) (now : UtcDateTime)
    (property_id : String) : PropertyScanAnalytics :=
  { id := id
    property_id := property_id
    total_scans := 0
    unique_scans := 0
    last_scanned := none
    first_scanned := none
    scans_today := 0
    scans_this_week := 0
    scans_this_month := 0
    top_countries := []
    device_breakdown := { mobile := 0, desktop := 0, tablet := 0, unknown := 0 }
    scan_trends := []
    average_response_time := none
    success_rate := 100
    last_updated := now }

/-- `PropertyScanAnalytics::update_with_scan`
(src/models/scan_analytics.rs lines 428-452); `Utc::now()` for
`last_updated` is taken as an argument. -/
def PropertyScanAnalytics.update_with_scan (a : PropertyScanAnalytics)
    (scan_event : ScanEvent) (now : UtcDateTime) : PropertyScanAnalytics :=
  let total_scans := a.total_scans + 1
  let first_scanned :=
    if a.first_scanned.isNone then some scan_event.scanned_at else a.first_scanned
  let device_breakdown :=
    match scan_event.device_info with
    | some device_info =>
      match device_info.device_type with
      | .Mobile => { a.device_breakdown with mobile := a.device_breakdown.mobile + 1 }
      | .Desktop => { a.device_breakdown with desktop := a.device_breakdown.desktop + 1 }
      | .Tablet => { a.device_breakdown with tablet := a.device_breakdown.tablet + 1 }
      | .Unknown => { a.device_breakdown with unknown := a.device_breakdown.unknown + 1 }
    | none => a.device_breakdown
  let total_events : ℚ := (total_scans : ℚ)
  let successful : ℚ := if scan_event.redirect_success then 1 else 0
  let success_rate :=
    ((a.success_rate * (total_events - 1)) + (successful * 100)) / total_events
  { a with
    total_scans := total_scans
    last_scanned := some scan_event.scanned_at
    first_scanned := first_scanned
    device_breakdown := device_breakdown
    success_rate := success_rate
    last_updated := now }

/-! ## src/services/analytics_service.rs : event construction -/

/-- `AnalyticsService::get_geolocation_from_ip` — stubbed in the source to
always return `None`. -/
def get_geolocation_from_ip (_ip_address : Option String) : Option GeoLocation :=
  none

/-- The scan event constructed and persisted by
`AnalyticsService::record_scan` (src/services/analytics_service.rs
lines 48-113); fresh id, clock and measured response time are arguments. -/
def record_scan_event (freshId : ObjectId) (now : UtcDateTime)
    (response_time : Nat) (property_id : String) (qr_version : Int)
    (scan_source : ScanSource) (redirect_type : RedirectType)
    (user_agent ip_address session_id referrer : Option String) : ScanEvent :=
  let device_info := user_agent.map DeviceInfo.from_user_agent
  let geolocation := get_geolocation_from_ip ip_address
  let scan_event :=
    (ScanEvent.new freshId now property_id qr_version scan_source redirect_type).with_request_data
      user_agent ip_address session_id referrer
  let scan_event :=
    match device_info with
    | some di => scan_event.with_device_info di
    | none => scan_event
  let scan_event :=
    match geolocation with
    | some g => scan_event.with_geolocation g
    | none => scan_event
  scan_event.with_response_time response_time

/-- The scan event constructed and persisted by
`AnalyticsService::record_failed_scan` (src/services/analytics_service.rs
lines 116-146). -/
def record_failed_scan_event (freshId : ObjectId) (now : UtcDateTime)
    (property_id : String) (qr_version : Int) (error_reason : String)
    (user_agent ip_address : Option String) : ScanEvent :=
  let device_info := user_agent.map DeviceInfo.from_user_agent
  let scan_event :=
    ((((ScanEvent.new freshId now property_id qr_version .QrCode .Failed).with_request_data
        user_agent ip_address none none).mark_failed).add_metadata
      "error_reason" (Json.str error_reason))
  match device_info with
  | some di => scan_event.with_device_info di
  | none => scan_event

/-! ## src/handlers/scan_handler.rs : the scan redirect engine -/

/-- Query parameters of `GET /scan/\x7bproperty_id\x7d`. -/
structure ScanQuery where
  source : Option String
  redirect : Option String
  ref_ : Option String
  utm_source : Option String
  utm_medium : Option String
  utm_campaign : Option String

/-- Display data carried by the dual-redirect landing page
(`ScanRedirectData`). -/
structure ScanRedirectData where
  property_id : String
  property_name : String
  location : Option String
  daobitar_url : String
  blockchain_url : Option String
  action : String
  price : Int
  primary_image : Option String
  is_verified : Bool
  crypto_accepted : Bool
  scan_id : ObjectId
deriving DecidableEq

/-- The terminal outcome the handler serves: an HTTP redirect, the rendered
dual-choice landing page, or the rendered error page. -/
inductive ScanOutcome where
  | redirect (url : String)
  | dualPage (data : ScanRedirectData)
  | errorPage (message : String) (property_id : String)
deriving DecidableEq

/-- Scan-source resolution (scan_handler.rs lines 79-86): unknown or absent
hints default to `QrCode`. -/
def determineScanSource (source : Option String) : ScanSource :=
  match source with
  | some "qr" => .QrCode
  | some "direct" => .DirectLink
  | some "share" => .ShareLink
  | some "search" => .SearchEngine
  | some "social" => .SocialMedia
  | _ => .QrCode

/-- Redirect-type classification (scan_handler.rs lines 107-117). -/
def determineRedirectType (redirect : Option String)
    (onchain_id : Option String) : RedirectType :=
  match redirect with
  | some "property" => .DaobitarOnly
  | some "blockchain" => .BlockchainOnly
  | _ => if onchain_id.isSome then .DualRedirect else .DaobitarOnly

/-- The scan handler's environment: property collection and id validation
for the lookup, the two redirect base urls, and the clock / fresh-id /
response-time oracles used by analytics recording. -/
structure ScanEnv where
  validId : String → Bool
  properties : List Property
  daobitar_base_url : String
  blockchain_explorer_base_url : String
  now : UtcDateTime
  freshId : ObjectId
  responseTime : Nat

/-- `scan_qr_code` (src/handlers/scan_handler.rs lines 59-185) as a pure
function: returns the handler result (`Result<Response, StatusCode>`,
with responses abstracted to `ScanOutcome`) together with the list of
analytics events recorded along the way. -/
def scan_qr_code (env : ScanEnv) (property_id : String) (query : ScanQuery)
    (user_agent : Option String) (ip_address : String)
    (referrer : Option String) : Except Nat ScanOutcome × List ScanEvent :=
  let scan_source := determineScanSource query.source
  match get_property_qr_info env.validId env.properties property_id with
  | .error _ =>
    -- lookup failure: record a failed scan and degrade to an error page
    let failed_event := record_failed_scan_event env.freshId env.now property_id 1
      "Property not found" user_agent (some ip_address)
    (.ok (.errorPage "Property not found" property_id), [failed_event])
  | .ok property_info =>
    let redirect_type := determineRedirectType query.redirect property_info.onchain_id
    let scan_event := record_scan_event env.freshId env.now env.responseTime
      property_id 1 scan_source redirect_type user_agent (some ip_address)
      none referrer
    let scan_id := env.freshId
    let property_url := env.daobitar_base_url ++ "/property/" ++ property_id
    let blockchain_url := property_info.onchain_id.map
      (fun onchain_id => env.blockchain_explorer_base_url ++ "/token/" ++ onchain_id)
    let outcome :=
      match redirect_type with
      | .DaobitarOnly => ScanOutcome.redirect property_url
      | .BlockchainOnly =>
        match blockchain_url with
        | some url => ScanOutcome.redirect url
        | none => ScanOutcome.redirect property_url
      | .DualRedirect =>
        ScanOutcome.dualPage
          { property_id := property_id
            property_name := property_info.property_name
            location := some property_info.location
            daobitar_url := property_url
            blockchain_url := blockchain_url
            action := property_info.action
            price := property_info.price
            primary_image := property_info.images.head?
            is_verified := property_info.is_verified.getD false
            crypto_accepted := property_info.crypto_accepted
            scan_id := scan_id }
      | .Failed => ScanOutcome.errorPage "Scan failed" property_id
    (.ok outcome, [scan_event])

/-! ## Spec-side definitions (written from the claim wording, for
refinement comparisons) -/

/-- The device classification exactly as claim C9 words it: the mobile
keyword checks come first. -/
def claimedDeviceTypeMobileFirst (user_agent : String) : DeviceType :=
  let l := strToLower user_agent
  if strContains l "mobile" || strContains l "android" || strContains l "iphone"
    then .Mobile
  else if strContains l "tablet" || strContains l "ipad" then .Tablet
  else .Desktop

/-- The amended device classification: the tablet keyword checks take
priority over the mobile ones. -/
def amendedDeviceTypeTabletFirst (user_agent : String) : DeviceType :=
  let l := strToLower user_agent
  if strContains l "tablet" || strContains l "ipad" then .Tablet
  else if strContains l "mobile" || strContains l "android" || strContains l "iphone"
    then .Mobile
  else .Desktop

/-- The batch (one-pass) per-event success mean, expressed in 0/100, as the
spec states it. -/
def batchSuccessRate (events : List ScanEvent) : ℚ :=
  100 * ((events.filter (fun e => e.redirect_success)).length : ℚ)
    / (events.length : ℚ)

/-! ## Concrete fixtures used by the witness theorems -/

/-- A QR-eligible property: two images, positive price, not removed. -/
def sampleEligibleProperty : Property :=
  { Property.defaultWith "p1" "owner1" 0 with
    property_name := "Sunset Villa"
    location := "Nairobi"
    action := "for sale"
    images := ["img1", "img2"]
    price := 50000 }

/-- A property with no images (ineligible). -/
def sampleNoImagesProperty : Property :=
  { Property.defaultWith "P2" "owner2" 0 with
    property_name := "Empty Plot"
    price := 50000 }

def sampleQrMetadata : QrMetadata :=
  { property_name := "Sunset Villa"
    location := "Nairobi"
    action := "for sale"
    price := 50000
    onchain_id := none
    crypto_accepted := false
    primary_image := some "img1"
    is_verified := false
    generated_by := none
    generation_reason := .NewProperty }

/-- An active stored QR record for property `p1`. -/
def sampleQrRecord : QrCodeMetadata :=
  QrCodeMetadata.new (fun s => s) "qrid0" 500 "p1" "pattern0"
    "https://s3.example/qr-images/p1.png" sampleQrMetadata

def sampleGenEnv : GenEnv :=
  { validId := fun _ => true
    properties := [sampleEligibleProperty, sampleNoImagesProperty]
    encode := fun _ => .ok [137, 80, 78, 71]
    upload := fun _ _ => .ok "https://s3.example/qr-images/new.png"
    sha256 := fun s => s
    baseUrl := "https://qr.example"
    now := 1000
    freshId := "qrid1" }

def sampleScanEnv : ScanEnv :=
  { validId := fun _ => true
    properties := [sampleEligibleProperty]
    daobitar_base_url := "https://daobitat.xyz"
    blockchain_explorer_base_url := "https://explorer.base.org"
    now := 2000
    freshId := "scanid1"
    responseTime := 5 }

def sampleScanQuery : ScanQuery :=
  { source := none, redirect := none, ref_ := none
    utm_source := none, utm_medium := none, utm_campaign := none }

/-- Three concrete scan events with successes true, false, true. -/
def sampleEventOk1 : ScanEvent := ScanEvent.new "e1" 0 "p1" 1 .QrCode .DualRedirect

def sampleEventFailed : ScanEvent :=
  (ScanEvent.new "e2" 0 "p1" 1 .QrCode .DualRedirect).mark_failed

def sampleEventOk2 : ScanEvent := ScanEvent.new "e3" 0 "p1" 1 .QrCode .DualRedirect

/-! ## The claims -/

/-- C2: when the property lookup succeeds, the redirect decision is:
with no hint or hint "dual", DualRedirect iff the property carries an
on-chain id, else DaobitarOnly; with hint "property", DaobitarOnly; with
hint "blockchain" and no on-chain id, the handler serves the DaobitarOnly
outcome (the redirect to the property page) as a fallback rather than an
error. -/
theorem c2_redirect_classification (oc : Option String) (env : ScanEnv)
    (property_id : String) (query : ScanQuery) (ua referrer : Option String)
    (ip : String) (info : PropertyQrInfo) :
    (determineRedirectType none oc
        = if oc.isSome then .DualRedirect else .DaobitarOnly)
    ∧ (determineRedirectType (some "dual") oc
        = if oc.isSome then .DualRedirect else .DaobitarOnly)
    ∧ (determineRedirectType (some "property") oc = .DaobitarOnly)
    ∧ (get_property_qr_info env.validId env.properties property_id = .ok info →
        info.onchain_id = none →
        query.redirect = some "blockchain" →
        (scan_qr_code env property_id query ua ip referrer).1
          = .ok (.redirect (env.daobitar_base_url ++ "/property/" ++ property_id))) := by
  refine ⟨rfl, rfl, rfl, ?_⟩
  intro hok hoc hq
  simp [scan_qr_code, hok, hq, determineRedirectType, hoc]

/-- Witness for C2 at a concrete environment: a property without an
on-chain id, scanned with the "blockchain" hint, is served the property-page
redirect. -/
theorem c2_redirect_classification_witness :
    (scan_qr_code sampleScanEnv "p1"
        { sampleScanQuery with redirect := some "blockchain" }
        none "1.2.3.4" none).1
      = .ok (.redirect "https://daobitat.xyz/property/p1") := by
  have h := (c2_redirect_classification none sampleScanEnv "p1"
    { sampleScanQuery with redirect := some "blockchain" }
    none none "1.2.3.4" (sampleEligibleProperty.to_qr_info)).2.2.2
    (by rfl) (by rfl) (by rfl)
  exact h

/-- C3: with `force_regenerate = false` and an existing active record, the
generator returns that record tagged `Exists` (same stored url; the store —
hence the stored `qr_version` — is untouched), invokes only the existing-
record lookup (no eligibility check, no encoder, no object store, no
upsert), and a second identical call returns the identical outcome. -/
theorem c3_generate_idempotent_fast_path (env : GenEnv)
    (store : List QrCodeMetadata) (property_id : String)
    (reason : QrGenerationReason) (qr : QrCodeMetadata)
    (hfind : findByPropertyId store property_id = some qr)
    (hact : qr.is_active = true) :
    (generate_qr_code env store property_id false reason).result
      = .ok { property_id := property_id
              qr_code_url := qr.qr_code_url
              scan_url := env.baseUrl ++ "/scan/" ++ property_id
              generated_at := qr.generated_at
              metadata := qr.metadata
              status := .Exists }
    ∧ (generate_qr_code env store property_id false reason).store = store
    ∧ (generate_qr_code env store property_id false reason).effects
        = [.lookupExisting property_id]
    ∧ generate_qr_code env
        ((generate_qr_code env store property_id false reason).store)
        property_id false reason
      = generate_qr_code env store property_id false reason := by
  have hgen : generate_qr_code env store property_id false reason
      = { result := .ok { property_id := property_id
                          qr_code_url := qr.qr_code_url
                          scan_url := env.baseUrl ++ "/scan/" ++ property_id
                          generated_at := qr.generated_at
                          metadata := qr.metadata
                          status := .Exists }
          store := store
          effects := [.lookupExisting property_id] } := by
    simp [generate_qr_code, hfind, hact]
  refine ⟨by rw [hgen], by rw [hgen], by rw [hgen], ?_⟩
  rw [hgen]
  exact hgen

/-- Witness for C3: a concrete store holding an active record for `p1`. -/
theorem c3_generate_idempotent_fast_path_witness :
    (generate_qr_code sampleGenEnv [sampleQrRecord] "p1" false .NewProperty).store
      = [sampleQrRecord]
    ∧ (generate_qr_code sampleGenEnv [sampleQrRecord] "p1" false .NewProperty).effects
        = [.lookupExisting "p1"] := by
  have h := c3_generate_idempotent_fast_path sampleGenEnv [sampleQrRecord]
    "p1" .NewProperty sampleQrRecord (by rfl) (by rfl)
  exact ⟨h.2.1, h.2.2.1⟩

/-- A record found under a property id carries that property id. -/
theorem findByPropertyId_eq {store : List QrCodeMetadata} {pid : String}
    {q : QrCodeMetadata} (h : findByPropertyId store pid = some q) :
    q.property_id = pid := by
  have := List.find?_some h
  simpa using this

/-- After an upsert, lookup under the upserted record's property id yields
exactly that record. -/
theorem findByPropertyId_upsert_self (store : List QrCodeMetadata)
    (q : QrCodeMetadata) :
    findByPropertyId (upsertByPropertyId store q) q.property_id = some q := by
  induction store with
  | nil => simp [findByPropertyId, upsertByPropertyId]
  | cons r rest ih =>
    by_cases h : r.property_id == q.property_id
    · simp [findByPropertyId, upsertByPropertyId, h]
    · simp only [upsertByPropertyId, h, if_neg]
      simpa [findByPropertyId, h] using ih

/-- Exhaustive case analysis of `generate_qr_code`: the call either hits the
idempotency fast path (returning the stored record, store untouched), fails
(store untouched), or succeeds having upserted a record whose version is 1
on the non-force path, `old + 1` when force-regenerating an existing record
(kept in place: same record id), and 2 when force-regenerating with no
existing record. -/
theorem generate_qr_code_cases (env : GenEnv) (store : List QrCodeMetadata)
    (property_id : String) (force : Bool) (reason : QrGenerationReason) :
    (force = false ∧ ∃ qr, findByPropertyId store property_id = some qr
        ∧ qr.is_active = true
        ∧ generate_qr_code env store property_id force reason
            = { result := .ok { property_id := property_id
                                qr_code_url := qr.qr_code_url
                                scan_url := env.baseUrl ++ "/scan/" ++ property_id
                                generated_at := qr.generated_at
                                metadata := qr.metadata
                                status := .Exists }
                store := store
                effects := [.lookupExisting property_id] })
    ∨ (∃ e, (generate_qr_code env store property_id force reason).result = .error e
          ∧ (generate_qr_code env store property_id force reason).store = store)
    ∨ (∃ qm, qm.property_id = property_id ∧ qm.is_active = true
        ∧ (generate_qr_code env store property_id force reason).result
            = .ok { property_id := property_id
                    qr_code_url := qm.qr_code_url
                    scan_url := env.baseUrl ++ "/scan/" ++ property_id
                    generated_at := qm.generated_at
                    metadata := qm.metadata
                    status := if force then .Regenerated else .Generated }
        ∧ (generate_qr_code env store property_id force reason).store
            = upsertByPropertyId store qm
        ∧ (force = false → qm.qr_version = 1)
        ∧ (force = true →
            (∀ r0, findByPropertyId store property_id = some r0 →
                qm.qr_version = r0.qr_version + 1 ∧ qm.id = r0.id)
            ∧ (findByPropertyId store property_id = none → qm.qr_version = 2))) := by
  cases force with
  | false =>
    cases hfind : findByPropertyId store property_id with
    | some qr =>
      cases hact : qr.is_active with
      | true =>
        exact Or.inl ⟨rfl, qr, rfl, hact, by simp [generate_qr_code, hfind, hact]⟩
      | false =>
        cases hprop : get_property_by_id env.validId env.properties property_id with
        | error e =>
          refine Or.inr (Or.inl ?_)
          cases e with
          | NotFound =>
            exact ⟨.PropertyNotFound, by simp [generate_qr_code, hfind, hact, hprop],
              by simp [generate_qr_code, hfind, hact, hprop]⟩
          | InvalidId =>
            exact ⟨.InvalidPropertyId, by simp [generate_qr_code, hfind, hact, hprop],
              by simp [generate_qr_code, hfind, hact, hprop]⟩
          | NotEligibleForQr r =>
            exact ⟨.PropertyNotEligible r, by simp [generate_qr_code, hfind, hact, hprop],
              by simp [generate_qr_code, hfind, hact, hprop]⟩
        | ok prop =>
          by_cases helig : prop.is_qr_eligible
          · cases henc : env.encode ((QrCodeData.new property_id env.baseUrl env.now).to_json_string) with
            | error msg =>
              exact Or.inr (Or.inl ⟨.QrGenerationFailed msg,
                by simp [generate_qr_code, hfind, hact, hprop, helig, henc],
                by simp [generate_qr_code, hfind, hact, hprop, helig, henc]⟩)
            | ok bytes =>
              cases hupl : env.upload ("qr-images/" ++ property_id ++ ".png") bytes with
              | error msg =>
                exact Or.inr (Or.inl ⟨.S3UploadFailed msg,
                  by simp [generate_qr_code, hfind, hact, hprop, helig, henc, hupl],
                  by simp [generate_qr_code, hfind, hact, hprop, helig, henc, hupl]⟩)
              | ok url =>
                refine Or.inr (Or.inr ⟨QrCodeMetadata.new env.sha256 env.freshId env.now
                  property_id ((QrCodeData.new property_id env.baseUrl env.now).to_json_string)
                  url (qrSnapshot prop.to_qr_info reason), rfl, rfl, ?_, ?_, ?_, ?_⟩)
                · simp [generate_qr_code, hfind, hact, hprop, helig, henc, hupl,
                    QrCodeMetadata.new]
                · simp [generate_qr_code, hfind, hact, hprop, helig, henc, hupl,
                    QrCodeMetadata.new]
                · intro _; rfl
                · intro h; exact absurd h (by simp)
          · exact Or.inr (Or.inl ⟨.PropertyNotEligible (get_ineligibility_reason prop),
              by simp [generate_qr_code, hfind, hact, hprop, helig],
              by simp [generate_qr_code, hfind, hact, hprop, helig]⟩)
    | none =>
      cases hprop : get_property_by_id env.validId env.properties property_id with
      | error e =>
        refine Or.inr (Or.inl ?_)
        cases e with
        | NotFound =>
          exact ⟨.PropertyNotFound, by simp [generate_qr_code, hfind, hprop],
            by simp [generate_qr_code, hfind, hprop]⟩
        | InvalidId =>
          exact ⟨.InvalidPropertyId, by simp [generate_qr_code, hfind, hprop],
            by simp [generate_qr_code, hfind, hprop]⟩
        | NotEligibleForQr r =>
          exact ⟨.PropertyNotEligible r, by simp [generate_qr_code, hfind, hprop],
            by simp [generate_qr_code, hfind, hprop]⟩
      | ok prop =>
        by_cases helig : prop.is_qr_eligible
        · cases henc : env.encode ((QrCodeData.new property_id env.baseUrl env.now).to_json_string) with
          | error msg =>
            exact Or.inr (Or.inl ⟨.QrGenerationFailed msg,
              by simp [generate_qr_code, hfind, hprop, helig, henc],
              by simp [generate_qr_code, hfind, hprop, helig, henc]⟩)
          | ok bytes =>
            cases hupl : env.upload ("qr-images/" ++ property_id ++ ".png") bytes with
            | error msg =>
              exact Or.inr (Or.inl ⟨.S3UploadFailed msg,
                by simp [generate_qr_code, hfind, hprop, helig, henc, hupl],
                by simp [generate_qr_code, hfind, hprop, helig, henc, hupl]⟩)
            | ok url =>
              refine Or.inr (Or.inr ⟨QrCodeMetadata.new env.sha256 env.freshId env.now
                property_id ((QrCodeData.new property_id env.baseUrl env.now).to_json_string)
                url (qrSnapshot prop.to_qr_info reason), rfl, rfl, ?_, ?_, ?_, ?_⟩)
              · simp [generate_qr_code, hfind, hprop, helig, henc, hupl,
                  QrCodeMetadata.new]
              · simp [generate_qr_code, hfind, hprop, helig, henc, hupl,
                  QrCodeMetadata.new]
              · intro _; rfl
              · intro h; exact absurd h (by simp)
        · exact Or.inr (Or.inl ⟨.PropertyNotEligible (get_ineligibility_reason prop),
            by simp [generate_qr_code, hfind, hprop, helig],
            by simp [generate_qr_code, hfind, hprop, helig]⟩)
  | true =>
    cases hprop : get_property_by_id env.validId env.properties property_id with
    | error e =>
      refine Or.inr (Or.inl ?_)
      cases e with
      | NotFound =>
        exact ⟨.PropertyNotFound, by simp [generate_qr_code, hprop],
          by simp [generate_qr_code, hprop]⟩
      | InvalidId =>
        exact ⟨.InvalidPropertyId, by simp [generate_qr_code, hprop],
          by simp [generate_qr_code, hprop]⟩
      | NotEligibleForQr r =>
        exact ⟨.PropertyNotEligible r, by simp [generate_qr_code, hprop],
          by simp [generate_qr_code, hprop]⟩
    | ok prop =>
      by_cases helig : prop.is_qr_eligible
      · cases henc : env.encode ((QrCodeData.new property_id env.baseUrl env.now).to_json_string) with
        | error msg =>
          exact Or.inr (Or.inl ⟨.QrGenerationFailed msg,
            by simp [generate_qr_code, hprop, helig, henc],
            by simp [generate_qr_code, hprop, helig, henc]⟩)
        | ok bytes =>
          cases hupl : env.upload ("qr-images/" ++ property_id ++ ".png") bytes with
          | error msg =>
            exact Or.inr (Or.inl ⟨.S3UploadFailed msg,
              by simp [generate_qr_code, hprop, helig, henc, hupl],
              by simp [generate_qr_code, hprop, helig, henc, hupl]⟩)
          | ok url =>
            cases hfind : findByPropertyId store property_id with
            | some r0 =>
              refine Or.inr (Or.inr ⟨{ (r0.regenerate env.sha256 env.now
                  ((QrCodeData.new property_id env.baseUrl env.now).to_json_string) url) with
                    metadata := qrSnapshot prop.to_qr_info reason },
                ?_, rfl, ?_, ?_, ?_, ?_⟩)
              · simp [QrCodeMetadata.regenerate, findByPropertyId_eq hfind]
              · simp [generate_qr_code, hprop, helig, henc, hupl, hfind,
                  QrCodeMetadata.regenerate, findByPropertyId_eq hfind]
              · simp [generate_qr_code, hprop, helig, henc, hupl, hfind,
                  QrCodeMetadata.regenerate]
              · intro h; exact absurd h (by simp)
              · intro _
                refine ⟨?_, ?_⟩
                · intro r1 h1
                  injection h1 with h2
                  subst h2
                  exact ⟨rfl, rfl⟩
                · intro h0
                  exact absurd h0 (by simp)
            | none =>
              refine Or.inr (Or.inr ⟨{ ((QrCodeMetadata.new env.sha256 env.freshId env.now
                  property_id ((QrCodeData.new property_id env.baseUrl env.now).to_json_string)
                  url (qrSnapshot prop.to_qr_info reason)).regenerate env.sha256 env.now
                  ((QrCodeData.new property_id env.baseUrl env.now).to_json_string) url) with
                    metadata := qrSnapshot prop.to_qr_info reason },
                rfl, rfl, ?_, ?_, ?_, ?_⟩)
              · simp [generate_qr_code, hprop, helig, henc, hupl, hfind,
                  QrCodeMetadata.regenerate, QrCodeMetadata.new]
              · simp [generate_qr_code, hprop, helig, henc, hupl, hfind,
                  QrCodeMetadata.regenerate, QrCodeMetadata.new]
              · intro h; exact absurd h (by simp)
              · intro _
                refine ⟨?_, ?_⟩
                · intro r1 h1
                  exact absurd h1 (by simp)
                · intro _
                  norm_num [QrCodeMetadata.regenerate, QrCodeMetadata.new]
      · exact Or.inr (Or.inl ⟨.PropertyNotEligible (get_ineligibility_reason prop),
          by simp [generate_qr_code, hprop, helig],
          by simp [generate_qr_code, hprop, helig]⟩)

/-- C4 counterexample: force-regenerating a property that has no stored QR
record succeeds but stores a freshly constructed record whose `qr_version`
is 2, not 1 — the fresh record is built at version 1 and then immediately
bumped by `regenerate`, so "first-time generation constructs a fresh record
at version 1" fails on the force path, and this regeneration did not mutate
any existing record in place. -/
theorem c4_counterexample :
    (generate_qr_code sampleGenEnv [] "p1" true .ManualRegeneration).result.isOk = true
    ∧ (findByPropertyId
          (generate_qr_code sampleGenEnv [] "p1" true .ManualRegeneration).store
          "p1").map (fun q => q.qr_version) = some 2
    ∧ ¬ ((findByPropertyId
          (generate_qr_code sampleGenEnv [] "p1" true .ManualRegeneration).store
          "p1").map (fun q => q.qr_version) = some 1) := by
  refine ⟨rfl, rfl, by decide⟩

/-- C4 (amended): after every successful generate call the stored record for
the property is active; a non-force call that generated a fresh record
(status `Generated`) stores it at `qr_version = 1`; a force call with an
existing record bumps that record's version by exactly 1 and keeps its
record id (in-place mutation); a force call with no existing record stores
a fresh record at `qr_version = 2` (built at 1, then immediately bumped);
and the non-force fast path (status `Exists`) leaves the store — hence the
stored version — untouched. -/
theorem c4_qr_version_lifecycle (env : GenEnv) (store : List QrCodeMetadata)
    (property_id : String) (force : Bool) (reason : QrGenerationReason)
    (resp : QrCodeResponse)
    (hok : (generate_qr_code env store property_id force reason).result = .ok resp) :
    ∃ q₀, findByPropertyId
        (generate_qr_code env store property_id force reason).store property_id
        = some q₀
      ∧ q₀.is_active = true
      ∧ (force = false → resp.status = .Generated → q₀.qr_version = 1)
      ∧ (∀ r, force = true → findByPropertyId store property_id = some r →
          q₀.qr_version = r.qr_version + 1 ∧ q₀.id = r.id)
      ∧ (force = true → findByPropertyId store property_id = none →
          q₀.qr_version = 2)
      ∧ (force = false → resp.status = .Exists →
          (generate_qr_code env store property_id force reason).store = store) := by
  rcases generate_qr_code_cases env store property_id force reason with
    ⟨hf, qr, hfind, hact, hgen⟩ | ⟨e, herr, _⟩ | ⟨qm, hpid, hact, hres, hst, hv1, hv2⟩
  · subst hf
    rw [hgen] at hok
    simp only [Except.ok.injEq] at hok
    refine ⟨qr, ?_, hact, ?_, ?_, ?_, ?_⟩
    · rw [hgen]; exact hfind
    · intro _ hstatus
      rw [← hok] at hstatus
      simp at hstatus
    · intro r hft _
      exact absurd hft (by simp)
    · intro hft
      exact absurd hft (by simp)
    · intro _ _
      rw [hgen]
  · rw [herr] at hok
    simp at hok
  · refine ⟨qm, ?_, hact, ?_, ?_, ?_, ?_⟩
    · rw [hst]
      have := findByPropertyId_upsert_self store qm
      rw [hpid] at this
      exact this
    · intro hf _
      exact hv1 hf
    · intro r hf hr
      exact (hv2 hf).1 r hr
    · intro hf hn
      exact (hv2 hf).2 hn
    · intro hf hstatus
      rw [hres] at hok
      simp only [Except.ok.injEq] at hok
      rw [← hok, hf] at hstatus
      simp at hstatus

/-- Witness for C4 at a concrete force-regeneration of an existing
version-1 record: the stored version becomes 2 and the record id is kept. -/
theorem c4_qr_version_lifecycle_witness :
    (findByPropertyId
        (generate_qr_code sampleGenEnv [sampleQrRecord] "p1" true .ManualRegeneration).store
        "p1").map (fun q => (q.qr_version, q.id))
      = some (2, "qrid0") := by
  have hok : (generate_qr_code sampleGenEnv [sampleQrRecord] "p1" true .ManualRegeneration).result
      = .ok { property_id := "p1"
              qr_code_url := "https://s3.example/qr-images/new.png"
              scan_url := "https://qr.example/scan/p1"
              generated_at := 500
              metadata := { property_name := "Sunset Villa"
                            location := "Nairobi"
                            action := "for sale"
                            price := 50000
                            onchain_id := none
                            crypto_accepted := false
                            primary_image := some "img1"
                            is_verified := false
                            generated_by := none
                            generation_reason := .ManualRegeneration }
              status := .Regenerated } := by rfl
  obtain ⟨q₀, hq, _, _, h2, _, _⟩ := c4_qr_version_lifecycle sampleGenEnv
    [sampleQrRecord] "p1" true .ManualRegeneration _ hok
  obtain ⟨hv, hid⟩ := h2 sampleQrRecord rfl (by rfl)
  rw [hq]
  change some (q₀.qr_version, q₀.id) = some ((2 : Int), ("qrid0" : String))
  rw [hv, hid]
  rfl

/-- C5: a failing generate call never touches the store, and each failure
mode surfaces as its corresponding typed error: invalid id as
`InvalidPropertyId`, unknown property as `PropertyNotFound`, an image-less
property as `PropertyNotEligible` with reason "Property has no images",
an encoder failure as `QrGenerationFailed`, an upload failure as
`S3UploadFailed`. -/
theorem c5_failure_atomicity (env : GenEnv) (store : List QrCodeMetadata)
    (property_id : String) (force : Bool) (reason : QrGenerationReason) :
    (∀ e, (generate_qr_code env store property_id force reason).result = .error e →
        (generate_qr_code env store property_id force reason).store = store)
    ∧ (findByPropertyId store property_id = none →
        ((env.validId property_id = false →
            (generate_qr_code env store property_id force reason).result
              = .error .InvalidPropertyId)
         ∧ (env.validId property_id = true →
            env.properties.find? (fun p => p.id == property_id) = none →
            (generate_qr_code env store property_id force reason).result
              = .error .PropertyNotFound)
         ∧ (∀ p, env.validId property_id = true →
            env.properties.find? (fun p0 => p0.id == property_id) = some p →
            p.removed.getD false = false → p.images = [] →
            (generate_qr_code env store property_id force reason).result
              = .error (.PropertyNotEligible "Property has no images"))
         ∧ (∀ p m, env.validId property_id = true →
            env.properties.find? (fun p0 => p0.id == property_id) = some p →
            p.is_qr_eligible = true →
            env.encode ((QrCodeData.new property_id env.baseUrl env.now).to_json_string)
              = .error m →
            (generate_qr_code env store property_id force reason).result
              = .error (.QrGenerationFailed m))
         ∧ (∀ p bs m, env.validId property_id = true →
            env.properties.find? (fun p0 => p0.id == property_id) = some p →
            p.is_qr_eligible = true →
            env.encode ((QrCodeData.new property_id env.baseUrl env.now).to_json_string)
              = .ok bs →
            env.upload ("qr-images/" ++ property_id ++ ".png") bs = .error m →
            (generate_qr_code env store property_id force reason).result
              = .error (.S3UploadFailed m)))) := by
  constructor
  · intro e herr
    rcases generate_qr_code_cases env store property_id force reason with
      ⟨_, qr, _, _, hgen⟩ | ⟨e2, _, hst⟩ | ⟨qm, _, _, hres, _, _, _⟩
    · rw [hgen] at herr
      simp at herr
    · exact hst
    · rw [hres] at herr
      simp at herr
  · intro hnf
    refine ⟨?_, ?_, ?_, ?_, ?_⟩
    · intro hv
      simp [generate_qr_code, hnf, get_property_by_id, hv]
    · intro hv hfp
      simp [generate_qr_code, hnf, get_property_by_id, hv, hfp]
    · intro p hv hfp hrem himg
      simp [generate_qr_code, hnf, get_property_by_id, hv, hfp,
        Property.is_qr_eligible, get_ineligibility_reason, hrem, himg]
    · intro p m hv hfp helig henc
      simp [generate_qr_code, hnf, get_property_by_id, hv, hfp, helig, henc]
    · intro p bs m hv hfp helig henc hupl
      simp [generate_qr_code, hnf, get_property_by_id, hv, hfp, helig, henc, hupl]

/-- Witness for C5: generating for the image-less property `P2` fails with
the no-images ineligibility error and leaves the empty store empty. -/
theorem c5_failure_atomicity_witness :
    (generate_qr_code sampleGenEnv [] "P2" false .NewProperty).result
      = .error (.PropertyNotEligible "Property has no images")
    ∧ (generate_qr_code sampleGenEnv [] "P2" false .NewProperty).store = [] := by
  have h := c5_failure_atomicity sampleGenEnv [] "P2" false .NewProperty
  have h2 := (h.2 (by rfl)).2.2.1 sampleNoImagesProperty rfl (by rfl) rfl rfl
  exact ⟨h2, h.1 _ h2⟩

/-- A successful generate response echoes the requested property id. -/
theorem generate_ok_property_id (env : GenEnv) (store : List QrCodeMetadata)
    (property_id : String) (force : Bool) (reason : QrGenerationReason)
    (resp : QrCodeResponse)
    (hok : (generate_qr_code env store property_id force reason).result = .ok resp) :
    resp.property_id = property_id := by
  rcases generate_qr_code_cases env store property_id force reason with
    ⟨_, qr, _, _, hgen⟩ | ⟨e, herr, _⟩ | ⟨qm, _, _, hres, _, _, _⟩
  · rw [hgen] at hok
    simp only [Except.ok.injEq] at hok
    rw [← hok]
  · rw [herr] at hok
    simp at hok
  · rw [hres] at hok
    simp only [Except.ok.injEq] at hok
    rw [← hok]

/-- Invariant of the batch loop: each processed id adds exactly one entry to
either the success or the failure list, tagged with that id. -/
theorem batch_fold_spec (env : GenEnv) (force : Bool)
    (reason : QrGenerationReason) :
    ∀ (ids : List String)
      (st : List QrCodeResponse × List QrGenerationFailure × List QrCodeMetadata),
      ((ids.foldl (batchStep env force reason) st).1.length
          + (ids.foldl (batchStep env force reason) st).2.1.length
        = st.1.length + st.2.1.length + ids.length)
      ∧ ((ids.foldl (batchStep env force reason) st).1.map (fun r => r.property_id)
          ++ (ids.foldl (batchStep env force reason) st).2.1.map (fun f => f.property_id)).Perm
          (st.1.map (fun r => r.property_id)
            ++ st.2.1.map (fun f => f.property_id) ++ ids) := by
  intro ids
  induction ids with
  | nil =>
    intro st
    simp
  | cons pid rest ih =>
    intro st
    have hstep :
        ((batchStep env force reason st pid).1.length
            + (batchStep env force reason st pid).2.1.length
          = st.1.length + st.2.1.length + 1)
        ∧ ((batchStep env force reason st pid).1.map (fun r => r.property_id)
            ++ (batchStep env force reason st pid).2.1.map (fun f => f.property_id)).Perm
            (st.1.map (fun r => r.property_id)
              ++ st.2.1.map (fun f => f.property_id) ++ [pid]) := by
      cases hres : (generate_qr_code env st.2.2 pid force reason).result with
      | ok resp =>
        have hpid := generate_ok_property_id env st.2.2 pid force reason resp hres
        constructor
        · simp [batchStep, hres]
          omega
        · simp only [batchStep, hres]
          simp only [List.map_append, List.map_cons, List.map_nil]
          rw [hpid]
          have h1 : ([pid] ++ st.2.1.map (fun f => f.property_id)).Perm
              (st.2.1.map (fun f => f.property_id) ++ [pid]) :=
            List.perm_append_comm
          have h2 := List.Perm.append_left (st.1.map (fun r => r.property_id)) h1
          simpa [List.append_assoc] using h2
      | error e =>
        constructor
        · simp [batchStep, hres]
          omega
        · simp only [batchStep, hres]
          simp only [List.map_append, List.map_cons, List.map_nil]
          rw [← List.append_assoc]
    have hrest := ih (batchStep env force reason st pid)
    rw [List.foldl_cons]
    constructor
    · have h1 := hrest.1
      have h2 := hstep.1
      simp only [List.length_cons]
      omega
    · have h := hrest.2.trans (List.Perm.append_right rest hstep.2)
      simpa [List.append_assoc] using h

/-- C6: `batch_generate` reports `total_requested` equal to the input
length; successes and failures partition the input
(`total_successful + total_failed = total_requested`, and the success and
failure lists carry exactly the input ids); a failing id never stops
processing of the rest; and the empty input yields the all-zero response
with empty lists rather than an error. -/
theorem c6_batch_partition (env : GenEnv) (store : List QrCodeMetadata)
    (ids : List String) (force : Bool) (reason : QrGenerationReason) :
    ((batch_generate_qr_codes env store ids force reason).1.total_requested
        = ids.length)
    ∧ ((batch_generate_qr_codes env store ids force reason).1.total_successful
        + (batch_generate_qr_codes env store ids force reason).1.total_failed
        = (batch_generate_qr_codes env store ids force reason).1.total_requested)
    ∧ ((batch_generate_qr_codes env store ids force reason).1.total_successful
        = (batch_generate_qr_codes env store ids force reason).1.successful.length)
    ∧ ((batch_generate_qr_codes env store ids force reason).1.total_failed
        = (batch_generate_qr_codes env store ids force reason).1.failed.length)
    ∧ ((batch_generate_qr_codes env store ids force reason).1.successful.map
          (fun r => r.property_id)
        ++ (batch_generate_qr_codes env store ids force reason).1.failed.map
          (fun f => f.property_id)).Perm ids
    ∧ (ids = [] →
        (batch_generate_qr_codes env store ids force reason).1
          = { successful := [], failed := [], total_requested := 0,
              total_successful := 0, total_failed := 0 }) := by
  have hfold := batch_fold_spec env force reason ids ([], [], store)
  refine ⟨rfl, ?_, rfl, rfl, ?_, ?_⟩
  · simp only [batch_generate_qr_codes]
    simpa using hfold.1
  · simp only [batch_generate_qr_codes]
    simpa using hfold.2
  · intro hids
    subst hids
    rfl

/-- Witness for C6: the empty batch yields the all-zero response. -/
theorem c6_batch_partition_witness :
    (batch_generate_qr_codes sampleGenEnv [] [] false .BatchGeneration).1
      = { successful := [], failed := [], total_requested := 0,
          total_successful := 0, total_failed := 0 } := by
  exact (c6_batch_partition sampleGenEnv [] [] false .BatchGeneration).2.2.2.2.2 rfl

/-- C1: `is_qr_eligible` returns true iff the property is not marked removed
(missing flag counts as not removed), its image list is non-empty and its
price is strictly positive; and the result depends on no other field:
two properties agreeing on `removed`, `images` and `price` are classified
identically. -/
theorem c1_is_qr_eligible_spec (p q : Property)
    (hr : p.removed = q.removed) (hi : p.images = q.images)
    (hp : p.price = q.price) :
    (p.is_qr_eligible
        = (!(p.removed.getD false) && !(p.images.isEmpty) && decide (0 < p.price)))
    ∧ p.is_qr_eligible = q.is_qr_eligible := by
  constructor
  · simp only [Property.is_qr_eligible]
    by_cases h1 : p.removed.getD false <;>
      by_cases h2 : p.images.isEmpty <;>
        by_cases h3 : p.price ≤ 0
    all_goals simp [h1, h2, h3, not_le]
    all_goals omega
  · simp only [Property.is_qr_eligible, hr, hi, hp]

/-- Witness for C1 at two concrete properties that agree on the three
relevant fields but differ elsewhere. -/
theorem c1_is_qr_eligible_spec_witness :
    ({ Property.defaultWith "a" "b" 0 with
        images := ["img1"], price := 50000 } : Property).is_qr_eligible
      = true := by
  have h := c1_is_qr_eligible_spec
    { Property.defaultWith "a" "b" 0 with images := ["img1"], price := 50000 }
    { Property.defaultWith "c" "d" 7 with images := ["img1"], price := 50000 }
    rfl rfl rfl
  exact h.1.trans (by decide)

/-- The failed-scan event always records `redirect_success = false`,
redirect type `Failed`, and a single `error_reason` metadata entry. -/
theorem record_failed_scan_event_fields (freshId : ObjectId)
    (now : UtcDateTime) (pid : String) (qv : Int) (reason : String)
    (ua ip : Option String) :
    (record_failed_scan_event freshId now pid qv reason ua ip).redirect_success = false
    ∧ (record_failed_scan_event freshId now pid qv reason ua ip).redirect_type = .Failed
    ∧ (record_failed_scan_event freshId now pid qv reason ua ip).metadata
        = [("error_reason", Json.str reason)] := by
  cases ua <;>
    simp [record_failed_scan_event, ScanEvent.new, ScanEvent.with_request_data,
      ScanEvent.mark_failed, ScanEvent.add_metadata, ScanEvent.with_device_info,
      insertKV]

/-- C7: when the property lookup fails for any reason, the handler records
exactly one failed-scan analytics event carrying the lookup-failure reason
string, returns the rendered not-found error page as a successful response
(`Ok`), and does not propagate the lookup error to the caller as a hard
failure. -/
theorem c7_scan_lookup_failure (env : ScanEnv) (property_id : String)
    (query : ScanQuery) (ua referrer : Option String) (ip : String)
    (e : PropertyError)
    (hfail : get_property_qr_info env.validId env.properties property_id
      = .error e) :
    (scan_qr_code env property_id query ua ip referrer).1
        = .ok (.errorPage "Property not found" property_id)
    ∧ (scan_qr_code env property_id query ua ip referrer).2
        = [record_failed_scan_event env.freshId env.now property_id 1
            "Property not found" ua (some ip)]
    ∧ ∀ ev ∈ (scan_qr_code env property_id query ua ip referrer).2,
        ev.redirect_success = false ∧ ev.redirect_type = .Failed
        ∧ ev.metadata = [("error_reason", Json.str "Property not found")] := by
  refine ⟨by simp [scan_qr_code, hfail], by simp [scan_qr_code, hfail], ?_⟩
  intro ev hev
  simp only [scan_qr_code, hfail] at hev
  simp only [List.mem_singleton] at hev
  subst hev
  exact record_failed_scan_event_fields env.freshId env.now property_id 1
    "Property not found" ua (some ip)

/-- Witness for C7: scanning the unknown property id "ghost" serves the
error page and records one failed event. -/
theorem c7_scan_lookup_failure_witness :
    (scan_qr_code sampleScanEnv "ghost" sampleScanQuery none "1.2.3.4" none).1
        = .ok (.errorPage "Property not found" "ghost")
    ∧ (scan_qr_code sampleScanEnv "ghost" sampleScanQuery none "1.2.3.4" none).2
        = [record_failed_scan_event "scanid1" 2000 "ghost" 1
            "Property not found" none (some "1.2.3.4")] := by
  have h := c7_scan_lookup_failure sampleScanEnv "ghost" sampleScanQuery
    none none "1.2.3.4" .NotFound (by rfl)
  exact ⟨h.1, h.2.1⟩

/-- Updating analytics with one scan increments `total_scans` and applies
the incremental-mean step to the success rate (multiplied through by the
new total). -/
theorem update_with_scan_rate_step (a : PropertyScanAnalytics)
    (e : ScanEvent) (now : UtcDateTime) (htot : 0 ≤ a.total_scans) :
    (a.update_with_scan e now).total_scans = a.total_scans + 1
    ∧ (a.update_with_scan e now).success_rate * ((a.total_scans : ℚ) + 1)
        = a.success_rate * (a.total_scans : ℚ)
          + (if e.redirect_success then (100 : ℚ) else 0) := by
  have hz : ((a.total_scans : ℚ) + 1) ≠ 0 := by
    have h0 : (0 : ℚ) ≤ (a.total_scans : ℚ) := by exact_mod_cast htot
    positivity
  constructor
  · simp [PropertyScanAnalytics.update_with_scan]
  · simp only [PropertyScanAnalytics.update_with_scan]
    push_cast
    rw [div_mul_cancel₀ _ hz]
    cases hs : e.redirect_success
    · norm_num [hs]
    · norm_num [hs]

/-- Folding scan events through `update_with_scan` keeps
`success_rate * total_scans` equal to 100 times the number of successful
events plus the initial contribution. -/
theorem fold_update_rate (now : UtcDateTime) :
    ∀ (events : List ScanEvent) (a : PropertyScanAnalytics),
      0 ≤ a.total_scans →
      ((events.foldl (fun acc ev => acc.update_with_scan ev now) a).total_scans
          = a.total_scans + events.length)
      ∧ ((events.foldl (fun acc ev => acc.update_with_scan ev now) a).success_rate
            * ((a.total_scans : ℚ) + (events.length : ℚ))
          = a.success_rate * (a.total_scans : ℚ)
            + 100 * (((events.filter (fun e => e.redirect_success)).length : ℕ) : ℚ)) := by
  intro events
  induction events with
  | nil =>
    intro a _
    simp
  | cons e es ih =>
    intro a htot
    obtain ⟨hst, hsr⟩ := update_with_scan_rate_step a e now htot
    have htot2 : 0 ≤ (a.update_with_scan e now).total_scans := by
      rw [hst]
      omega
    obtain ⟨iht, ihr⟩ := ih (a.update_with_scan e now) htot2
    simp only [List.foldl_cons, List.length_cons, List.filter_cons]
    constructor
    · rw [iht, hst]
      push_cast
      omega
    · have harg : (a.total_scans : ℚ) + ((es.length + 1 : ℕ) : ℚ)
          = ((a.update_with_scan e now).total_scans : ℚ) + (es.length : ℚ) := by
        rw [hst]
        push_cast
        ring
      rw [harg, ihr, hst]
      push_cast
      rw [hsr]
      cases hs : e.redirect_success
      · simp only [hs, Bool.false_eq_true, if_false]
        ring
      · simp only [hs, if_true, List.length_cons]
        push_cast
        ring

/-- C8: applying one scan event to a property's analytics recomputes the
running success rate as `((old_rate * (n - 1)) + (100 if success else 0)) / n`
with `n` the total-scan count after the increment; consequently, starting
from a fresh analytics record, the incrementally maintained rate after any
non-empty event sequence equals the batch mean of per-event success
expressed in 0/100 (real-number arithmetic is modelled exactly by
rationals). -/
theorem c8_success_rate_incremental_mean (a : PropertyScanAnalytics)
    (e : ScanEvent) (now now0 : UtcDateTime) (id : ObjectId) (pid : String)
    (events : List ScanEvent) (hne : events ≠ []) :
    ((a.update_with_scan e now).success_rate
        = ((a.success_rate * (((a.total_scans + 1 : ℤ) : ℚ) - 1))
            + (if e.redirect_success then (100 : ℚ) else 0))
          / ((a.total_scans + 1 : ℤ) : ℚ))
    ∧ ((events.foldl (fun acc ev => acc.update_with_scan ev now)
          (PropertyScanAnalytics.new id now0 pid)).success_rate
        = batchSuccessRate events) := by
  constructor
  · simp only [PropertyScanAnalytics.update_with_scan]
    cases hs : e.redirect_success
    · norm_num [hs]
    · norm_num [hs]
  · have hfold := (fold_update_rate now events (PropertyScanAnalytics.new id now0 pid)
      (by norm_num [PropertyScanAnalytics.new])).2
    have htot0 : (PropertyScanAnalytics.new id now0 pid).total_scans = 0 := rfl
    have hrate0 : (PropertyScanAnalytics.new id now0 pid).success_rate = 100 := rfl
    rw [htot0, hrate0] at hfold
    have hlen : (0 : ℚ) < (events.length : ℚ) := by
      have : 0 < events.length := List.length_pos.mpr hne
      exact_mod_cast this
    rw [batchSuccessRate]
    rw [eq_div_iff (ne_of_gt hlen)]
    have hfold2 : (events.foldl (fun acc ev => acc.update_with_scan ev now)
          (PropertyScanAnalytics.new id now0 pid)).success_rate
            * (events.length : ℚ)
        = 100 * (((events.filter (fun e => e.redirect_success)).length : ℕ) : ℚ) := by
      have h0 : ((0 : ℤ) : ℚ) = 0 := by norm_num
      calc (events.foldl (fun acc ev => acc.update_with_scan ev now)
              (PropertyScanAnalytics.new id now0 pid)).success_rate
              * (events.length : ℚ)
          = (events.foldl (fun acc ev => acc.update_with_scan ev now)
              (PropertyScanAnalytics.new id now0 pid)).success_rate
              * (((0 : ℤ) : ℚ) + (events.length : ℚ)) := by rw [h0]; ring
        _ = 100 * ((0 : ℤ) : ℚ)
              + 100 * (((events.filter (fun e => e.redirect_success)).length : ℕ) : ℚ) := by
            rw [hfold]
        _ = 100 * (((events.filter (fun e => e.redirect_success)).length : ℕ) : ℚ) := by
            rw [h0]; ring
    rw [hfold2]

/-- Witness for C8: after the successes [true, false, true] the incremental
rate equals 200/3 (= 66.66...%). -/
theorem c8_success_rate_incremental_mean_witness :
    (([sampleEventOk1, sampleEventFailed, sampleEventOk2]).foldl
        (fun acc ev => acc.update_with_scan ev 0)
        (PropertyScanAnalytics.new "a1" 0 "p1")).success_rate = 200 / 3 := by
  have h := (c8_success_rate_incremental_mean (PropertyScanAnalytics.new "a1" 0 "p1")
    sampleEventOk1 0 0 "a1" "p1"
    [sampleEventOk1, sampleEventFailed, sampleEventOk2] (by simp)).2
  rw [h]
  norm_num [batchSuccessRate, sampleEventOk1, sampleEventFailed, sampleEventOk2,
    ScanEvent.new, ScanEvent.mark_failed, List.filter]

/-- C9 counterexample: the user agent "Android Tablet" contains the mobile
keyword "android", so the claim's mobile-first priority classifies it
Mobile, but the code checks the tablet keywords first and classifies it
Tablet. -/
theorem c9_counterexample :
    claimedDeviceTypeMobileFirst "Android Tablet" = .Mobile
    ∧ (DeviceInfo.from_user_agent "Android Tablet").device_type = .Tablet
    ∧ ¬ ((DeviceInfo.from_user_agent "Android Tablet").device_type
          = claimedDeviceTypeMobileFirst "Android Tablet") := by
  refine ⟨by decide, by decide, by decide⟩

/-- C9 (amended): device classification is by case-insensitive substring
matching with the tablet checks taking priority: a user agent containing
"tablet" or "ipad" is tablet; otherwise one containing "mobile", "android"
or "iphone" is mobile; anything else is desktop. -/
theorem c9_device_classification_amended (ua : String) :
    (DeviceInfo.from_user_agent ua).device_type = amendedDeviceTypeTabletFirst ua
    ∧ (DeviceInfo.from_user_agent ua).is_mobile
        = (strContains (strToLower ua) "mobile"
            || strContains (strToLower ua) "android"
            || strContains (strToLower ua) "iphone") := by
  exact ⟨rfl, rfl⟩

/-- C10: every event built by the `record_scan` path has
`redirect_success = true` regardless of its inputs; `redirect_success =
false` arises only through the `record_failed_scan` path (which also forces
redirect type `Failed`); and applying a successful event never lowers a
property's success rate, so only failed-path events can lower it. -/
theorem c10_scan_success_flag (freshId : ObjectId) (now : UtcDateTime)
    (rtime : Nat) (pid : String) (qv : Int) (src : ScanSource)
    (rty : RedirectType) (ua ip sess ref ua2 ip2 : Option String)
    (reason : String) :
    (record_scan_event freshId now rtime pid qv src rty ua ip sess ref).redirect_success
        = true
    ∧ (record_failed_scan_event freshId now pid qv reason ua2 ip2).redirect_success
        = false
    ∧ (record_failed_scan_event freshId now pid qv reason ua2 ip2).redirect_type
        = .Failed
    ∧ (∀ (a : PropertyScanAnalytics) (e : ScanEvent) (now2 : UtcDateTime),
        e.redirect_success = true → 0 ≤ a.total_scans → a.success_rate ≤ 100 →
        a.success_rate ≤ (a.update_with_scan e now2).success_rate) := by
  refine ⟨?_, (record_failed_scan_event_fields freshId now pid qv reason ua2 ip2).1,
    (record_failed_scan_event_fields freshId now pid qv reason ua2 ip2).2.1, ?_⟩
  · cases ua <;>
      simp [record_scan_event, ScanEvent.new, ScanEvent.with_request_data,
        ScanEvent.with_device_info, ScanEvent.with_geolocation,
        ScanEvent.with_response_time, get_geolocation_from_ip]
  · intro a e now2 hsucc htot hrate
    have hpos : (0 : ℚ) < (a.total_scans : ℚ) + 1 := by
      have h1 : (0 : ℚ) ≤ (a.total_scans : ℚ) := by exact_mod_cast htot
      linarith
    have hstep := (update_with_scan_rate_step a e now2 htot).2
    rw [hsucc, if_pos rfl] at hstep
    have key : a.success_rate * ((a.total_scans : ℚ) + 1)
        ≤ (a.update_with_scan e now2).success_rate * ((a.total_scans : ℚ) + 1) := by
      rw [hstep]
      have hexp : a.success_rate * ((a.total_scans : ℚ) + 1)
          = a.success_rate * (a.total_scans : ℚ) + a.success_rate := by ring
      rw [hexp]
      linarith
    exact le_of_mul_le_mul_right key hpos

/-- Witness for C10: concrete successful and failed events, and a concrete
rate-monotonicity instance at a fresh analytics record. -/
theorem c10_scan_success_flag_witness :
    (record_scan_event "s1" 0 5 "p1" 1 .QrCode .DualRedirect none
        (some "1.2.3.4") none none).redirect_success = true
    ∧ (PropertyScanAnalytics.new "a1" 0 "p1").success_rate
        ≤ ((PropertyScanAnalytics.new "a1" 0 "p1").update_with_scan
            sampleEventOk1 0).success_rate := by
  have h := c10_scan_success_flag "s1" 0 5 "p1" 1 .QrCode .DualRedirect
    none (some "1.2.3.4") none none none none "r"
  refine ⟨h.1, h.2.2.2 (PropertyScanAnalytics.new "a1" 0 "p1") sampleEventOk1 0
    rfl (by decide) (by norm_num [PropertyScanAnalytics.new])⟩

end PropertyQr
